import Mathlib

/-!
Shallow embedding of the HKAcadJobs scraper core (scraper.py): field
normalization (`detect_rank`, `detect_type`, `parse_date_text`), identity
assignment (`make_id`), deduplication, retention filtering, the incremental
diff stage of `main`, and the anchor-window extractor of `scrape_eduhk`.
Machine integers are modelled as `Nat` with explicit reduction modulo 2^32
where overflow matters, strings as `List Char`, and Python library calls
(`hashlib.md5`, `datetime.strptime`, `re`) are embedded as executable
definitions of their documented semantics.
-/

/-- Python regex `\s` on the ASCII range (space, tab, newline, carriage
return, vertical tab, form feed).  The scraper only handles ASCII/Latin
page text, so Unicode-only space code points are outside the modelled
domain. -/
def pySpace (c : Char) : Bool :=
  c = ' ' || c = '\t' || c = '\n' || c = '\r' || c = '\x0b' || c = '\x0c'

/-- One pass of Python `re.sub(r"\s+", " ", text)`: every maximal run of
whitespace becomes a single space.  The flag records whether the previous
character was part of a whitespace run. -/
def collapseWsAux : List Char → Bool → List Char
  | [], _ => []
  | c :: rest, prevWs =>
    if pySpace c then
      if prevWs then collapseWsAux rest true
      else ' ' :: collapseWsAux rest true
    else c :: collapseWsAux rest false

/-- Python `str.strip()` restricted to ASCII whitespace. -/
def pyStrip (cs : List Char) : List Char :=
  ((cs.dropWhile pySpace).reverse.dropWhile pySpace).reverse

/-- The scraper's `clean`: collapse internal whitespace runs to single
spaces, then strip.  (`clean` returns `""` for falsy input; the empty
string case coincides with the computation below.) -/
def cleanL (cs : List Char) : List Char :=
  pyStrip (collapseWsAux cs false)

/-- String-level wrapper for `clean`. -/
def clean (s : String) : String :=
  String.mk (cleanL s.data)

/-- Python `str.lower()` restricted to ASCII case mapping (the keyword
tables the scraper matches against are ASCII). -/
def pyLower (s : String) : String :=
  String.mk (s.data.map Char.toLower)

/-- Python `str.upper()` restricted to ASCII case mapping. -/
def pyUpper (s : String) : String :=
  String.mk (s.data.map Char.toUpper)

/-- Python substring test `pat in hay` over character lists. -/
def containsSub (pat : List Char) : List Char → Bool
  | [] => pat.isEmpty
  | c :: rest => pat.isPrefixOf (c :: rest) || containsSub pat rest

/-- Python `needle in hay` for strings. -/
def pyIn (needle hay : String) : Bool :=
  containsSub needle.data hay.data

/-- Python regex `\w` (Unicode word character: alphanumeric or underscore),
tabulated for code points below U+0100, the range covering the scraper's
reference strings: ASCII alphanumerics and `_`, the Latin-1 letters
(ª µ º, À–Ö, Ø–ö, ø–ÿ, i.e. U+00C0–U+00FF except × U+00D7 and ÷ U+00F7),
and the Latin-1 numeric characters ¹ ² ³ ¼ ½ ¾. -/
def pyWordChar (c : Char) : Bool :=
  c.isAlphanum || c = '_' ||
  (c.toNat = 0xAA || c.toNat = 0xB2 || c.toNat = 0xB3 || c.toNat = 0xB5 ||
   c.toNat = 0xB9 || c.toNat = 0xBA || c.toNat = 0xBC || c.toNat = 0xBD ||
   c.toNat = 0xBE ||
   (0xC0 ≤ c.toNat && c.toNat ≤ 0xFF && c.toNat ≠ 0xD7 && c.toNat ≠ 0xF7))

/-! UTF-8 encoding (Python `str.encode()`), needed because `make_id`
hashes the UTF-8 bytes of the key. -/

/-- UTF-8 encoding of one character as a list of byte values. -/
def utf8Bytes (c : Char) : List Nat :=
  let n := c.toNat
  if n < 0x80 then [n]
  else if n < 0x800 then [0xC0 + n / 0x40, 0x80 + n % 0x40]
  else if n < 0x10000 then
    [0xE0 + n / 0x1000, 0x80 + n / 0x40 % 0x40, 0x80 + n % 0x40]
  else
    [0xF0 + n / 0x40000, 0x80 + n / 0x1000 % 0x40, 0x80 + n / 0x40 % 0x40,
     0x80 + n % 0x40]

/-- UTF-8 encoding of a character list. -/
def utf8Encode (cs : List Char) : List Nat :=
  cs.flatMap utf8Bytes

/-! MD5 (`hashlib.md5`), over byte lists, with 32-bit words as `Nat`
reduced modulo 2^32. -/

/-- Reduction modulo 2^32. -/
def u32 (n : Nat) : Nat := n % 4294967296

/-- Rotate a 32-bit word left by `s` bits (valid for `x < 2^32`). -/
def rotl32 (x s : Nat) : Nat :=
  x * 2 ^ s % 4294967296 + x / 2 ^ (32 - s)

/-- MD5 per-round shift amounts. -/
def md5s : List Nat :=
  [7, 12, 17, 22, 7, 12, 17, 22, 7, 12, 17, 22, 7, 12, 17, 22,
   5, 9, 14, 20, 5, 9, 14, 20, 5, 9, 14, 20, 5, 9, 14, 20,
   4, 11, 16, 23, 4, 11, 16, 23, 4, 11, 16, 23, 4, 11, 16, 23,
   6, 10, 15, 21, 6, 10, 15, 21, 6, 10, 15, 21, 6, 10, 15, 21]

/-- MD5 sine-derived additive constants. -/
def md5K : List Nat :=
  [3614090360, 3905402710, 606105819, 3250441966, 4118548399, 1200080426,
   2821735955, 4249261313, 1770035416, 2336552879, 4294925233, 2304563134,
   1804603682, 4254626195, 2792965006, 1236535329, 4129170786, 3225465664,
   643717713, 3921069994, 3593408605, 38016083, 3634488961, 3889429448,
   568446438, 3275163606, 4107603335, 1163531501, 2850285829, 4243563512,
   1735328473, 2368359562, 4294588738, 2272392833, 1839030562, 4259657740,
   2763975236, 1272893353, 4139469664, 3200236656, 681279174, 3936430074,
   3572445317, 76029189, 3654602809, 3873151461, 530742520, 3299628645,
   4096336452, 1126891415, 2878612391, 4237533241, 1700485571, 2399980690,
   4293915773, 2240044497, 1873313359, 4264355552, 2734768916, 1309151649,
   4149444226, 3174756917, 718787259, 3951481745]

/-- MD5 nonlinear round function (bitwise complement within 32 bits is
`4294967295 - x`). -/
def md5F (i b c d : Nat) : Nat :=
  if i < 16 then b &&& c ||| (4294967295 - b) &&& d
  else if i < 32 then d &&& b ||| (4294967295 - d) &&& c
  else if i < 48 then b ^^^ c ^^^ d
  else c ^^^ (b ||| (4294967295 - d))

/-- MD5 message-word index schedule. -/
def md5g (i : Nat) : Nat :=
  if i < 16 then i
  else if i < 32 then (5 * i + 1) % 16
  else if i < 48 then (3 * i + 5) % 16
  else 7 * i % 16

/-- MD5 padding: append 0x80, zero bytes up to 56 mod 64, then the bit
length as 8 little-endian bytes. -/
def md5Pad (msg : List Nat) : List Nat :=
  let len := msg.length
  let zeros := (64 + 56 - (len + 1) % 64) % 64
  msg ++ 128 :: List.replicate zeros 0 ++
    (List.range 8).map (fun i => 8 * len / 2 ^ (8 * i) % 256)

/-- Split a byte list into 64-byte blocks (structural recursion on a fuel
bound, so that the definition reduces inside the kernel; the fuel
`l.length` always suffices since every step consumes 64 ≥ 1 bytes). -/
def chunks64Aux : Nat → List Nat → List (List Nat)
  | 0, _ => []
  | _, [] => []
  | fuel + 1, x :: rest => ((x :: rest).take 64) :: chunks64Aux fuel (rest.drop 63)

/-- Split a byte list into 64-byte blocks. -/
def chunks64 (l : List Nat) : List (List Nat) :=
  chunks64Aux l.length l

/-- One MD5 round: state `(a, b, c, d)`, message words `M`. -/
def md5Round (M : Nat → Nat) (st : Nat × Nat × Nat × Nat) (i : Nat) :
    Nat × Nat × Nat × Nat :=
  let a := st.1
  let b := st.2.1
  let c := st.2.2.1
  let d := st.2.2.2
  let f := u32 (md5F i b c d + a + md5K.getD i 0 + M (md5g i))
  (d, u32 (b + rotl32 f (md5s.getD i 0)), b, c)

/-- MD5 compression of one 64-byte block into the running state. -/
def md5Block (st : Nat × Nat × Nat × Nat) (chunk : List Nat) :
    Nat × Nat × Nat × Nat :=
  let M := fun j =>
    chunk.getD (4 * j) 0 + 256 * chunk.getD (4 * j + 1) 0 +
    65536 * chunk.getD (4 * j + 2) 0 + 16777216 * chunk.getD (4 * j + 3) 0
  let r := (List.range 64).foldl (md5Round M) st
  (u32 (st.1 + r.1), u32 (st.2.1 + r.2.1), u32 (st.2.2.1 + r.2.2.1),
   u32 (st.2.2.2 + r.2.2.2))

/-- MD5 of a byte list: final state after all blocks. -/
def md5Core (msg : List Nat) : Nat × Nat × Nat × Nat :=
  (chunks64 (md5Pad msg)).foldl md5Block
    (1732584193, 4023233417, 2562383102, 271733878)

/-- Little-endian byte decomposition of a 32-bit word. -/
def wordLEBytes (w : Nat) : List Nat :=
  [w % 256, w / 256 % 256, w / 65536 % 256, w / 16777216 % 256]

/-- Lowercase hex digit. -/
def hexDigit (n : Nat) : Char :=
  if n < 10 then Char.ofNat (48 + n) else Char.ofNat (87 + n)

/-- Two lowercase hex digits of a byte. -/
def byteHex (b : Nat) : List Char :=
  [hexDigit (b / 16), hexDigit (b % 16)]

/-- Python `hashlib.md5(bytes).hexdigest()`. -/
def md5HexBytes (msg : List Nat) : List Char :=
  let st := md5Core msg
  ([st.1, st.2.1, st.2.2.1, st.2.2.2].flatMap wordLEBytes).flatMap byteHex

/-- `hashlib.md5(key.encode()).hexdigest()` for a string key. -/
def md5Hex (key : String) : String :=
  String.mk (md5HexBytes (utf8Encode key.data))

/-- The verbatim-key test of `make_id`: Python
`re.match(r'^[\w\-]+$', key)`.  Keys reaching this test come from `clean`
(or are the literal `"unknown"`), hence contain no newline, so the `$`
anchor coincides with end of string. -/
def wordHyphenMatch (cs : List Char) : Bool :=
  !cs.isEmpty && cs.all (fun c => pyWordChar c || c = '-')

/-- The scraper's `make_id(uni_code, ref)`.  A falsy reference (Python
`None` or the empty string, modelled as `none` / `some ""`) yields the key
`"unknown"`; otherwise the key is the cleaned reference.  Keys of length
at most 20 matching `^[\w\-]+$` are used verbatim; all others are replaced
by the first 10 hex characters of their MD5. -/
def make_id (uni_code : String) (ref : Option String) : String :=
  let key : String := match ref with
    | none => "unknown"
    | some r => if r = "" then "unknown" else clean r
  if key.length ≤ 20 && wordHyphenMatch key.data then
    pyUpper uni_code ++ "-" ++ key
  else
    pyUpper uni_code ++ "-" ++ String.mk ((md5Hex key).data.take 10)

set_option maxRecDepth 100000

/-! Rank and position-type classification (`detect_rank`, `detect_type`). -/

/-- The scraper's `detect_rank`: ordered case-insensitive substring rules
over the lowercased title. -/
def detect_rank (title : String) : String :=
  let t := pyLower title
  if pyIn "chair professor" t then "Professor"
  else if pyIn "associate professor" t then "Associate Professor"
  else if pyIn "assistant professor" t then "Assistant Professor"
  else if pyIn "professor" t then "Professor"
  else if pyIn "postdoc" t then "Postdoc"
  else if pyIn "research fellow" t then "Postdoc"
  else if pyIn "lecturer" t then "Lecturer"
  else if pyIn "teaching fellow" t then "Lecturer"
  else if pyIn "instructor" t then "Lecturer"
  else if pyIn "clinical" t then "Lecturer"
  else "Other"

/-- The scraper's `detect_type`. -/
def detect_type (title : String) : String :=
  let t := pyLower title
  if pyIn "temporary" t || pyIn "fixed-term" t then "Fixed-term"
  else if pyIn "part-time" t then "Part-time"
  else "Full-time"

/-! Dates: proleptic Gregorian calendar as used by `datetime.date`, and an
executable embedding of `datetime.strptime` for the scraper's format
strings (directives `%Y %m %d %B %b`, literal separators, and whitespace
matched as a run). -/

/-- A calendar date (`datetime.date`). -/
structure PDate where
  y : Nat
  m : Nat
  d : Nat
deriving DecidableEq

/-- Gregorian leap-year rule. -/
def isLeap (y : Nat) : Bool :=
  y % 4 = 0 && (y % 100 ≠ 0 || y % 400 = 0)

/-- Length of a month. -/
def daysInMonth (y m : Nat) : Nat :=
  if m = 2 then (if isLeap y then 29 else 28)
  else if m = 4 || m = 6 || m = 9 || m = 11 then 30
  else 31

/-- Days in year `y` before the first of month `m`. -/
def daysBeforeMonth (y m : Nat) : Nat :=
  ((List.range (m - 1)).map (fun i => daysInMonth y (i + 1))).sum

/-- Python `date.toordinal()`: day count with 0001-01-01 ↦ 1.  Dates
compare (and subtract, via `timedelta`) exactly as their ordinals do. -/
def toOrdinal (dt : PDate) : Nat :=
  365 * (dt.y - 1) + (dt.y - 1) / 4 - (dt.y - 1) / 100 + (dt.y - 1) / 400 +
    daysBeforeMonth dt.y dt.m + dt.d

/-- Decimal digits of `n`, left-padded with zeros to `width`. -/
def padNum (width n : Nat) : List Char :=
  let s := Nat.toDigits 10 n
  List.replicate (width - s.length) '0' ++ s

/-- Python `d.strftime("%Y-%m-%d")`.  The model fixes `%Y` to a
zero-padded four-digit year (CPython delegates to the platform strftime,
which may drop the padding for years below 1000; every date handled by
the scraper has a four-digit year). -/
def formatYmd (dt : PDate) : String :=
  String.mk (padNum 4 dt.y ++ '-' :: padNum 2 dt.m ++ '-' :: padNum 2 dt.d)

/-- Numeric value of an ASCII digit. -/
def digitVal (c : Char) : Nat := c.toNat - 48

/-- Full month names with month numbers (locale C), lowercased; matched
case-insensitively by the `%B` directive. -/
def monthNamesFull : List (List Char × Nat) :=
  [("january".data, 1), ("february".data, 2), ("march".data, 3),
   ("april".data, 4), ("may".data, 5), ("june".data, 6), ("july".data, 7),
   ("august".data, 8), ("september".data, 9), ("october".data, 10),
   ("november".data, 11), ("december".data, 12)]

/-- Abbreviated month names for the `%b` directive. -/
def monthNamesAbbr : List (List Char × Nat) :=
  [("jan".data, 1), ("feb".data, 2), ("mar".data, 3), ("apr".data, 4),
   ("may".data, 5), ("jun".data, 6), ("jul".data, 7), ("aug".data, 8),
   ("sep".data, 9), ("oct".data, 10), ("nov".data, 11), ("dec".data, 12)]

/-- Match a name case-insensitively as a prefix of the input; return the
rest of the input on success. -/
def matchNameCI (name input : List Char) : Option (List Char) :=
  if (input.take name.length).map Char.toLower = name then
    some (input.drop name.length)
  else none

/-- First month name (from the given table) matching at the head of the
input.  No month name is a prefix of another within either table, so the
match is unambiguous. -/
def tryMonthNames (names : List (List Char × Nat)) (input : List Char) :
    Option (Nat × List Char) :=
  match names with
  | [] => none
  | (nm, v) :: rest =>
    match matchNameCI nm input with
    | some remaining => some (v, remaining)
    | none => tryMonthNames rest input

/-- Interpreter for CPython `_strptime` over the scraper's format strings.
Directive regexes (from `_strptime.TimeRE`):
`%Y` is exactly four digits; `%m` is `1[0-2]|0[1-9]|[1-9]`;
`%d` is `3[0-1]|[1-2]\d|0[1-9]|[1-9]| [1-9]` (note the space-padded
alternative); `%B`/`%b` match month names case-insensitively; a whitespace
character in the format matches a run `\s+`; any other character matches
itself.  In every format used by the scraper each directive is followed by
a literal separator or the end, so greedy matching without backtracking
coincides with the regex semantics. -/
def runFmt : List Char → List Char → PDate → Option (PDate × List Char)
  | [], input, acc => some (acc, input)
  | '%' :: 'Y' :: fmtRest, input, acc =>
    match input with
    | a :: b :: c :: d :: rest =>
      if a.isDigit && b.isDigit && c.isDigit && d.isDigit then
        runFmt fmtRest rest { acc with
          y := 1000 * digitVal a + 100 * digitVal b + 10 * digitVal c + digitVal d }
      else none
    | _ => none
  | '%' :: 'm' :: fmtRest, input, acc =>
    match input with
    | a :: b :: rest =>
      if a.isDigit && b.isDigit && 1 ≤ 10 * digitVal a + digitVal b &&
          10 * digitVal a + digitVal b ≤ 12 then
        runFmt fmtRest rest { acc with m := 10 * digitVal a + digitVal b }
      else if a.isDigit && 1 ≤ digitVal a && digitVal a ≤ 9 then
        runFmt fmtRest (b :: rest) { acc with m := digitVal a }
      else none
    | [a] =>
      if a.isDigit && 1 ≤ digitVal a && digitVal a ≤ 9 then
        runFmt fmtRest [] { acc with m := digitVal a }
      else none
    | [] => none
  | '%' :: 'd' :: fmtRest, input, acc =>
    match input with
    | a :: b :: rest =>
      if a.isDigit && b.isDigit && 1 ≤ 10 * digitVal a + digitVal b &&
          10 * digitVal a + digitVal b ≤ 31 then
        runFmt fmtRest rest { acc with d := 10 * digitVal a + digitVal b }
      else if a.isDigit && 1 ≤ digitVal a && digitVal a ≤ 9 then
        runFmt fmtRest (b :: rest) { acc with d := digitVal a }
      else if a = ' ' && b.isDigit && 1 ≤ digitVal b && digitVal b ≤ 9 then
        runFmt fmtRest rest { acc with d := digitVal b }
      else none
    | [a] =>
      if a.isDigit && 1 ≤ digitVal a && digitVal a ≤ 9 then
        runFmt fmtRest [] { acc with d := digitVal a }
      else none
    | [] => none
  | '%' :: 'B' :: fmtRest, input, acc =>
    match tryMonthNames monthNamesFull input with
    | some (v, rest) => runFmt fmtRest rest { acc with m := v }
    | none => none
  | '%' :: 'b' :: fmtRest, input, acc =>
    match tryMonthNames monthNamesAbbr input with
    | some (v, rest) => runFmt fmtRest rest { acc with m := v }
    | none => none
  | l :: fmtRest, input, acc =>
    if pySpace l then
      match input with
      | c :: rest =>
        if pySpace c then runFmt fmtRest (rest.dropWhile pySpace) acc else none
      | [] => none
    else
      match input with
      | c :: rest => if c = l then runFmt fmtRest rest acc else none
      | [] => none

/-- Python `datetime.strptime(input, fmt)` for the scraper's formats:
the whole input must be consumed, and the `datetime` constructor then
validates the calendar date (`MINYEAR = 1`, day within the month). -/
def strptime (input fmt : String) : Option PDate :=
  match runFmt fmt.data input.data ⟨1900, 1, 1⟩ with
  | some (acc, []) =>
    if 1 ≤ acc.y && acc.y ≤ 9999 && 1 ≤ acc.m && acc.m ≤ 12 && 1 ≤ acc.d &&
        acc.d ≤ daysInMonth acc.y acc.m then
      some acc
    else none
  | _ => none

/-- The fixed ordered list of formats tried by `parse_date_text`. -/
def pyFormats : List String :=
  ["%d %B %Y", "%d %b %Y", "%Y-%m-%d", "%d/%m/%Y", "%m/%d/%Y",
   "%B %d, %Y", "%b %d, %Y"]

/-- First format in the list that parses the text. -/
def firstParse (fmts : List String) (t : String) : Option PDate :=
  fmts.findSome? (fun fmt => strptime t fmt)

/-- The scraper's `parse_date_text`: clean the text, try the format list
in order, return the ISO conversion of the first success, else the cleaned
text unchanged (and `""` for falsy input). -/
def parse_date_text (text : String) : String :=
  if text = "" then ""
  else
    let t := clean text
    match firstParse pyFormats t with
    | some dt => formatYmd dt
    | none => t

/-- The scraper's `is_active` with the ambient `TODAY` made an explicit
parameter: true when the deadline is empty, unparseable under `%Y-%m-%d`,
or on/after today. -/
def is_active (today : PDate) (deadline_str : String) : Bool :=
  if deadline_str = "" then true
  else
    match strptime deadline_str "%Y-%m-%d" with
    | some d => toOrdinal today ≤ toOrdinal d
    | none => true

/-- The scraper's `is_within_retention` with `TODAY` explicit: true when
the deadline is empty, unparseable under `%Y-%m-%d`, or on/after
`today - timedelta(days)`. -/
def is_within_retention (today : PDate) (deadline_str : String) (days : Nat) : Bool :=
  if deadline_str = "" then true
  else
    match strptime deadline_str "%Y-%m-%d" with
    | some d => (toOrdinal today : Int) - days ≤ toOrdinal d
    | none => true

/-! The canonical record and the dedup → retention → diff pipeline of
`main`. -/

/-- A job record with the fixed CSV schema (`FIELDNAMES`).  The per-site
scrapers build all fields except `date_added`, which only the diff stage
of `main` assigns; it is carried here as a field (initially `""`) since
every record passes through the diff stage before serialization. -/
structure Job where
  id : String
  title : String
  rank : String
  university : String
  university_full : String
  department : String
  deadline : String
  is_new : String
  date_added : String
  reference : String
  position_type : String
  salary : String
  start_date : String
  apply_url : String
  description : String
deriving DecidableEq

/-- The loop body of `deduplicate`, with the `seen` id set explicit. -/
def dedupAux (seen : List String) : List Job → List Job
  | [] => []
  | j :: rest =>
    if j.id ∈ seen then dedupAux seen rest
    else j :: dedupAux (j.id :: seen) rest

/-- The scraper's `deduplicate`: keep the first record of each id. -/
def deduplicate (jobs : List Job) : List Job :=
  dedupAux [] jobs

/-- The retention step of `main`:
`[j for j in all_jobs if is_within_retention(j.get("deadline", ""))]`. -/
def retentionStep (today : PDate) (jobs : List Job) : List Job :=
  jobs.filter (fun j => is_within_retention today j.deadline 30)

/-- One iteration of the diff loop of `main`.  `existing` is the
`PreviousSnapshot` dict (id → date_added), modelled as an association
list with distinct keys; `List.lookup` is the dict lookup. -/
def diffOne (existing : List (String × String)) (todayStr : String) (j : Job) : Job :=
  match existing.lookup j.id with
  | some v => { j with is_new := "FALSE", date_added := v }
  | none => { j with is_new := "TRUE", date_added := todayStr }

/-- The diff stage of `main`: the loop mutates each record in place,
which is the map of `diffOne` over the sequence. -/
def applyDiff (existing : List (String × String)) (todayStr : String)
    (jobs : List Job) : List Job :=
  jobs.map (diffOne existing todayStr)

/-- The canonical pipeline of `main` after scraping: dedup, retention,
diff, with the ambient run date explicit. -/
def runPipeline (today : PDate) (existing : List (String × String))
    (raw : List Job) : List Job :=
  applyDiff existing (formatYmd today) (retentionStep today (deduplicate raw))

/-- CSV quoting (`csv.writer`, QUOTE_MINIMAL): quote a field containing
the delimiter, the quote character or a line break, doubling quotes. -/
def csvField (s : String) : List Char :=
  if s.data.any (fun c => c = ',' || c = '"' || c = '\n' || c = '\r') then
    '"' :: s.data.flatMap (fun c => if c = '"' then ['"', '"'] else [c]) ++ ['"']
  else s.data

/-- One CSV row with the writer's default `\r\n` terminator. -/
def csvRow (fields : List String) : List Char :=
  List.intercalate [','] (fields.map csvField) ++ ['\r', '\n']

/-- A record's fields in the fixed `FIELDNAMES` column order. -/
def jobFields (j : Job) : List String :=
  [j.id, j.title, j.rank, j.university, j.university_full, j.department,
   j.deadline, j.is_new, j.date_added, j.reference, j.position_type,
   j.salary, j.start_date, j.apply_url, j.description]

/-- Serialization of the canonical dataset: header row then one row per
record (`csv.DictWriter` with `FIELDNAMES`). -/
def serializeCsv (jobs : List Job) : String :=
  String.mk
    (csvRow ["id", "title", "rank", "university", "university_full",
             "department", "deadline", "is_new", "date_added", "reference",
             "position_type", "salary", "start_date", "apply_url",
             "description"] ++
     jobs.flatMap (fun j => csvRow (jobFields j)))

/-! The anchor-window extractor of `scrape_eduhk`: the per-page loop body
anchoring on `"Ad Date:"` occurrences in the flat rendered text. -/

/-- Python slice `cs[a:b]`. -/
def sliceL (cs : List Char) (a b : Nat) : List Char :=
  (cs.take b).drop a

/-- Leftmost non-overlapping occurrence positions of a (nonempty) pattern,
as enumerated by `re.finditer` of the literal anchor; fuel-structural so
the definition reduces in the kernel. -/
def findOccAux (pat : List Char) : Nat → List Char → Nat → List Nat
  | 0, _, _ => []
  | _, [], _ => []
  | fuel + 1, c :: rest, i =>
    if pat.isPrefixOf (c :: rest) then
      i :: findOccAux pat fuel ((c :: rest).drop pat.length) (i + pat.length)
    else findOccAux pat fuel rest (i + 1)

/-- All `re.finditer` start positions of a literal pattern. -/
def findOcc (pat cs : List Char) : List Nat :=
  findOccAux pat cs.length cs 0

/-- Python `str.splitlines()` restricted to the `\n`, `\r\n` and `\r`
line boundaries occurring in the scraped page text: one element per line,
with no trailing empty element for a trailing newline. -/
def splitLinesAux : Nat → List Char → List Char → List (List Char)
  | _, [], cur => [cur.reverse]
  | 0, _, cur => [cur.reverse]
  | fuel + 1, '\r' :: '\n' :: rest, cur =>
    cur.reverse :: (if rest.isEmpty then [] else splitLinesAux fuel rest [])
  | fuel + 1, '\r' :: rest, cur =>
    cur.reverse :: (if rest.isEmpty then [] else splitLinesAux fuel rest [])
  | fuel + 1, '\n' :: rest, cur =>
    cur.reverse :: (if rest.isEmpty then [] else splitLinesAux fuel rest [])
  | fuel + 1, c :: rest, cur => splitLinesAux fuel rest (c :: cur)

/-- Python `str.splitlines()` (see `splitLinesAux`). -/
def splitLinesL (cs : List Char) : List (List Char) :=
  if cs.isEmpty then [] else splitLinesAux cs.length cs []

/-- The pagination/nav filter
`re.match(r'^(Next|Previous|Go to page|Search|Filter|Home|Menu|\d+)$', l, re.I)`:
a full-line case-insensitive match of one of the literals, or a bare
number. -/
def navNoiseLine (l : List Char) : Bool :=
  let low := l.map Char.toLower
  low = "next".data || low = "previous".data || low = "go to page".data ||
  low = "search".data || low = "filter".data || low = "home".data ||
  low = "menu".data || (!l.isEmpty && l.all Char.isDigit)

/-- The `NOISE` set of known UI noise lines. -/
def uiNoise : List (List Char) :=
  ["n/a".data, "na".data, "reset".data, "search".data, "filter".data,
   "apply".data, "clear".data, "go".data, "next".data, "previous".data]

/-- Keyword prefixes of the organizational-unit pattern
`^(Department|Faculty|School|Academy|Division|Office|Centre|Center)`,
matched case-insensitively. -/
def deptKeywords : List (List Char) :=
  ["department".data, "faculty".data, "school".data, "academy".data,
   "division".data, "office".data, "centre".data, "center".data]

/-- Does a line match the organizational-unit pattern? -/
def deptLine (l : List Char) : Bool :=
  deptKeywords.any (fun k => k.isPrefixOf (l.map Char.toLower))

/-- The backward walk over the content lines: skip unit-like lines
(recording the innermost as the department), and stop at the first
non-unit line, the title.  Returns `(title, dept)` with `[]` for "not
found". -/
def walkBack : List (List Char) → List Char → (List Char × List Char)
  | [], dept => ([], dept)
  | line :: rest, dept =>
    if deptLine line then
      walkBack rest (if dept.isEmpty then line else dept)
    else
      (line, dept)

/-- Match of `Ref:\s*(\d{6,})` anchored at the head of the input:
the literal, optional whitespace, then at least six digits (captured
greedily). -/
def refMatchAt (cs : List Char) : Option (List Char) :=
  if "Ref:".data.isPrefixOf cs then
    let digits := ((cs.drop 4).dropWhile pySpace).takeWhile Char.isDigit
    if 6 ≤ digits.length then some digits else none
  else none

/-- Leftmost `re.search(r'Ref:\s*(\d{6,})', hay)` capture. -/
def searchRefAux : Nat → List Char → Option (List Char)
  | 0, _ => none
  | _, [] => none
  | fuel + 1, c :: rest =>
    match refMatchAt (c :: rest) with
    | some d => some d
    | none => searchRefAux fuel rest

/-- Character class `[:\s]`. -/
def closeClass1 (c : Char) : Bool := c = ':' || pySpace c

/-- Character class `[A-Za-z0-9 ]`. -/
def closeClass2 (c : Char) : Bool := c.isAlphanum || c = ' '

/-- Greedy-with-backtracking match of `[:\s]+([A-Za-z0-9 ]+)` on `rest`:
try the longest `[:\s]+` munch first, shrinking it (down to one
character) until a nonempty capture follows, as the regex engine does
(the classes share the space character). -/
def closeBacktrack : Nat → List Char → Option (List Char)
  | 0, _ => none
  | k + 1, rest =>
    let cap := (rest.drop (k + 1)).takeWhile closeClass2
    if cap.isEmpty then closeBacktrack k rest else some cap

/-- Match of `Close Date[:\s]+([A-Za-z0-9 ]+)` anchored at the head. -/
def closeMatchAt (cs : List Char) : Option (List Char) :=
  if "Close Date".data.isPrefixOf cs then
    let rest := cs.drop 10
    closeBacktrack ((rest.takeWhile closeClass1).length) rest
  else none

/-- Leftmost `re.search(r'Close Date[:\s]+([A-Za-z0-9 ]+)', after)`
capture. -/
def searchCloseAux : Nat → List Char → Option (List Char)
  | 0, _ => none
  | _, [] => none
  | fuel + 1, c :: rest =>
    match closeMatchAt (c :: rest) with
    | some cap => some cap
    | none => searchCloseAux fuel rest

/-- State threaded through the anchor loop: the composite-key dedup set
and the records collected so far. -/
structure EdState where
  seen : List (List Char)
  jobs : List Job
deriving DecidableEq

/-- The body of `scrape_eduhk`'s anchor loop for one `"Ad Date:"`
occurrence at character position `i`: take the 600-character window
before and the 200-character window after the anchor (the anchor itself
is 8 characters), split and filter the preceding lines, walk backward for
title and department, pull the reference and close-date fields from the
windows with the targeted patterns, dedup on the composite key, and
append the assembled record. -/
def eduhkOne (today : PDate) (category : String) (fullText : List Char)
    (st : EdState) (i : Nat) : EdState :=
  let before := sliceL fullText (i - 600) i
  let after := sliceL fullText (i + 8) (i + 8 + 200)
  let beforeLines := ((splitLinesL before).map pyStrip).filter (fun l => !l.isEmpty)
  let contentLines0 := beforeLines.filter
    (fun l => !navNoiseLine l && !("Ref:".data.isPrefixOf l) && 2 < l.length)
  if contentLines0.isEmpty then st else
  let contentLines := contentLines0.filter
    (fun l => !uiNoise.contains (l.map Char.toLower))
  if contentLines.isEmpty then st else
  let w := walkBack contentLines.reverse []
  let title := if w.1.isEmpty then w.2 else w.1
  let dept := if w.1.isEmpty then ([] : List Char) else w.2
  if title.isEmpty || title.length < 3 then st else
  let refHay := before.drop (before.length - 150) ++ after.take 50
  let ref := (searchRefAux refHay.length refHay).getD []
  let key := if !ref.isEmpty then title ++ '|' :: ref else title ++ '|' :: dept
  if st.seen.contains key then st else
  let deadline := match searchCloseAux after.length after with
    | some cap =>
      let raw := pyStrip cap
      if raw.map Char.toUpper = "N/A".data || raw.map Char.toUpper = "NA".data ||
          raw.isEmpty then ""
      else parse_date_text (String.mk raw)
    | none => ""
  let titleS := String.mk title
  let deptS := String.mk dept
  let refS := String.mk ref
  let idRef := if !ref.isEmpty then refS
    else String.mk (title.take 40) ++ "_" ++ String.mk (dept.take 20)
  let job : Job :=
    { id := make_id "EDUHK" (some idRef)
      title := titleS
      rank := detect_rank titleS
      university := "EdUHK"
      university_full := "Education University of Hong Kong"
      department := deptS
      deadline := deadline
      is_new := if is_active today deadline then "TRUE" else "FALSE"
      date_added := ""
      reference := refS
      position_type := detect_type titleS
      salary := ""
      start_date := ""
      apply_url := "https://www.eduhk.hk/en/current-openings?category=" ++
        category ++ "&department=&q="
      description := titleS ++ (if !dept.isEmpty then " — " ++ deptS else "") ++
        ". See EdUHK website for full details." }
  { seen := key :: st.seen, jobs := st.jobs ++ [job] }

/-- The anchor-window extraction over one page's flat text: process every
`"Ad Date:"` occurrence in document order.  In the source the `seen` set
persists across pages of one scrape; here it starts empty, the state of
the first processed page. -/
def eduhkExtract (today : PDate) (category : String) (fullText : String) :
    List Job :=
  ((findOcc "Ad Date:".data fullText.data).foldl
    (eduhkOne today category fullText.data) { seen := [], jobs := [] }).jobs

/-- The spec's functional test text for the anchor-window extractor. -/
def c1Text : String :=
  "School of Science (3)\nSenior Lecturer\nDepartment of Physics\nAd Date: 2025-01-01\nClose Date: 2025-02-01"

/-! Spec-side definitions, stated from the spec's words, for comparison
with the definitions embedded from the source. -/

/-- The spec's id character class `[A-Za-z0-9_-]` (ASCII only). -/
def specAsciiKeyChar (c : Char) : Bool :=
  c.isAlphanum || c = '_' || c = '-'

/-- First-match evaluation of an ordered substring rule table over the
lowercased title, with default `"Other"`. -/
def firstRuleMatch (t : String) : List (String × String) → String
  | [] => "Other"
  | (pat, r) :: rest =>
    if pyIn pat (pyLower t) then r else firstRuleMatch t rest

/-- The spec's ordered rank rule table (§4.1), written from the spec. -/
def rankRulesSpec : List (String × String) :=
  [("chair professor", "Professor"),
   ("associate professor", "Associate Professor"),
   ("assistant professor", "Assistant Professor"),
   ("professor", "Professor"),
   ("postdoc", "Postdoc"), ("research fellow", "Postdoc"),
   ("lecturer", "Lecturer"), ("teaching fellow", "Lecturer"),
   ("instructor", "Lecturer"), ("clinical", "Lecturer")]

/-- Rank classification as the spec describes it: the result of the first
matching rule of the ordered table, else `"Other"`. -/
def classifyRankSpec (title : String) : String :=
  firstRuleMatch title rankRulesSpec

/-- The spec's retention comparison "deadline ≥ (run date − N days)",
reading the deadline string as an ISO date. -/
def specDeadlineGE (today : PDate) (days : Nat) (s : String) : Prop :=
  ∃ dt, strptime s "%Y-%m-%d" = some dt ∧
    (toOrdinal today : Int) - days ≤ toOrdinal dt

/-! Concrete records used to instantiate the theorems below. -/

/-- A record whose id appears in the sample snapshot. -/
def sampleJob : Job :=
  { id := "POLYU-123", title := "Professor of Chemistry", rank := "Professor",
    university := "PolyU", university_full := "Hong Kong Polytechnic University",
    department := "Department of Chemistry", deadline := "2025-10-20",
    is_new := "TRUE", date_added := "", reference := "123",
    position_type := "Full-time", salary := "", start_date := "",
    apply_url := "https://jobs.polyu.edu.hk/job_detail.php?job=123",
    description := "Professor of Chemistry (Department of Chemistry)." }

/-- A record whose id is absent from the sample snapshot. -/
def sampleJob2 : Job :=
  { id := "HKU-999", title := "Lecturer in Law", rank := "Lecturer",
    university := "HKU", university_full := "University of Hong Kong",
    department := "Faculty of Law", deadline := "",
    is_new := "TRUE", date_added := "", reference := "999",
    position_type := "Full-time", salary := "", start_date := "",
    apply_url := "https://jobs.hku.hk/en/listing/",
    description := "Lecturer in Law." }

/-- The spec's sample snapshot `{"POLYU-123": "2025-01-01"}`. -/
def sampleSnapshot : List (String × String) :=
  [("POLYU-123", "2025-01-01")]

/-! Helper lemmas about the pipeline stages. -/

/-- The diff stage never changes a record's id. -/
theorem diffOne_id (e : List (String × String)) (t : String) (j : Job) :
    (diffOne e t j).id = j.id := by
  unfold diffOne
  cases h : List.lookup j.id e <;> simp [h]

/-- The diff stage preserves the id sequence. -/
theorem applyDiff_map_id (e : List (String × String)) (t : String)
    (l : List Job) : (applyDiff e t l).map Job.id = l.map Job.id := by
  unfold applyDiff
  induction l with
  | nil => rfl
  | cons x rest ih => simp [diffOne_id, ih]

/-- A record emitted by the dedup loop has an id outside the incoming
`seen` set. -/
theorem dedupAux_mem_not_seen {seen : List String} {l : List Job} {j : Job}
    (h : j ∈ dedupAux seen l) : j.id ∉ seen := by
  induction l generalizing seen with
  | nil => simp [dedupAux] at h
  | cons x rest ih =>
    by_cases hx : x.id ∈ seen
    · rw [dedupAux, if_pos hx] at h
      exact ih h
    · rw [dedupAux, if_neg hx] at h
      rcases List.mem_cons.mp h with rfl | h2
      · exact hx
      · intro hmem
        exact ih h2 (List.mem_cons_of_mem _ hmem)

/-- The dedup loop emits pairwise distinct ids. -/
theorem dedupAux_nodup (seen : List String) (l : List Job) :
    ((dedupAux seen l).map Job.id).Nodup := by
  induction l generalizing seen with
  | nil => simp [dedupAux]
  | cons x rest ih =>
    by_cases hx : x.id ∈ seen
    · rw [dedupAux, if_pos hx]
      exact ih seen
    · rw [dedupAux, if_neg hx]
      simp only [List.map_cons, List.nodup_cons]
      refine ⟨?_, ih _⟩
      intro hmem
      rcases List.mem_map.mp hmem with ⟨j, hj, hid⟩
      have hnot := dedupAux_mem_not_seen hj
      rw [hid] at hnot
      exact hnot (List.mem_cons_self _ _)

/-- Every record emitted by the dedup loop is the first input record with
its id. -/
theorem dedupAux_first {seen : List String} {l : List Job} {j : Job}
    (h : j ∈ dedupAux seen l) :
    ∃ l1 l2, l = l1 ++ j :: l2 ∧ ∀ k ∈ l1, k.id ≠ j.id := by
  induction l generalizing seen with
  | nil => simp [dedupAux] at h
  | cons x rest ih =>
    by_cases hx : x.id ∈ seen
    · rw [dedupAux, if_pos hx] at h
      obtain ⟨l1, l2, hsplit, hpre⟩ := ih h
      have hne : x.id ≠ j.id := by
        intro he
        exact dedupAux_mem_not_seen h (he ▸ hx)
      refine ⟨x :: l1, l2, by rw [hsplit]; rfl, ?_⟩
      intro k hk
      rcases List.mem_cons.mp hk with rfl | hk2
      · exact hne
      · exact hpre k hk2
    · rw [dedupAux, if_neg hx] at h
      rcases List.mem_cons.mp h with rfl | h2
      · exact ⟨[], rest, rfl, by simp⟩
      · obtain ⟨l1, l2, hsplit, hpre⟩ := ih h2
        have hnot := dedupAux_mem_not_seen h2
        have hne : x.id ≠ j.id := by
          intro he
          exact hnot (he ▸ List.mem_cons_self _ _)
        refine ⟨x :: l1, l2, by rw [hsplit]; rfl, ?_⟩
        intro k hk
        rcases List.mem_cons.mp hk with rfl | hk2
        · exact hne
        · exact hpre k hk2

/-- Every input id either was already seen or is represented in the dedup
loop's output. -/
theorem dedupAux_complete {l : List Job} {x : Job} (hx : x ∈ l)
    (seen : List String) :
    x.id ∈ seen ∨ ∃ j, j ∈ dedupAux seen l ∧ j.id = x.id := by
  induction l generalizing seen with
  | nil => cases hx
  | cons y rest ih =>
    by_cases hy : y.id ∈ seen
    · rw [dedupAux, if_pos hy]
      rcases List.mem_cons.mp hx with rfl | hx2
      · exact Or.inl hy
      · exact ih hx2 seen
    · rw [dedupAux, if_neg hy]
      rcases List.mem_cons.mp hx with rfl | hx2
      · exact Or.inr ⟨x, List.mem_cons_self _ _, rfl⟩
      · rcases ih hx2 (y.id :: seen) with hin | ⟨j, hj, hid⟩
        · rcases List.mem_cons.mp hin with he | hin2
          · exact Or.inr ⟨y, List.mem_cons_self _ _, he.symm⟩
          · exact Or.inl hin2
        · exact Or.inr ⟨j, List.mem_cons_of_mem _ hj, hid⟩

/-! Claim theorems. -/

/-- C2 (counterexample): with an absent reference, `make_id` returns the
literal key `"unknown"`, not the 10-character hash of `"unknown"` — the
literal passes the verbatim-key test, so the hash branch is never
reached.  The hash the claim expects would have been `"ad921d6048"`. -/
theorem c2_counterexample :
    make_id "POLYU" none = "POLYU-unknown" ∧
    String.mk ((md5Hex "unknown").data.take 10) = "ad921d6048" ∧
    make_id "POLYU" none ≠ "POLYU-" ++ String.mk ((md5Hex "unknown").data.take 10) :=
  ⟨by decide, by decide, by decide⟩

/-- C2 (amended): for every source code, when the reference argument is
absent (`None`) or empty, `make_id` returns `"{SOURCE_CODE}-unknown"`
with the literal key `"unknown"` (which satisfies the verbatim rule:
length ≤ 20 and all word characters). -/
theorem c2_amended_unknown_literal (code : String) :
    make_id code none = pyUpper code ++ "-" ++ "unknown" ∧
    make_id code (some "") = pyUpper code ++ "-" ++ "unknown" :=
  ⟨rfl, rfl⟩

/-- C3 (counterexample): the cleaned reference `"é1"` contains `'é'`,
which is outside the spec's class `[A-Za-z0-9_-]`, yet `make_id` keeps it
verbatim (`"HKU-é1"`), because Python `\w` matches non-ASCII letters; the
hashed form is never produced for it. -/
theorem c3_counterexample :
    specAsciiKeyChar 'é' = false ∧ clean "é1" = "é1" ∧
    make_id "HKU" (some "é1") = "HKU-é1" ∧
    make_id "HKU" (some "é1") ≠
      "HKU-" ++ String.mk ((md5Hex (clean "é1")).data.take 10) :=
  ⟨by decide, by decide, by decide, by decide⟩

/-- C3 (amended): for every nonempty reference over code points below
U+0100 (the range where the embedding of Python `\w` is exact), if the
cleaned form is longer than 20 characters or contains a character that is
neither a word character nor `'-'`, `make_id` produces the hashed form
`"{SOURCE_CODE}-{first 10 hex chars of the MD5 of the cleaned
reference}"`.  Non-ASCII letters such as `'é'` are word characters and do
NOT force the hashed form. -/
theorem c3_amended_hashed_form (code r : String) (hr : r ≠ "")
    (hlatin : ∀ c ∈ r.data, c.toNat < 256)
    (hbad : 20 < (clean r).length ∨
      ∃ c ∈ (clean r).data, pyWordChar c = false ∧ c ≠ '-') :
    make_id code (some r) =
      pyUpper code ++ "-" ++ String.mk ((md5Hex (clean r)).data.take 10) := by
  have hcond : ¬(((clean r).length ≤ 20 && wordHyphenMatch (clean r).data) = true) := by
    intro hcond
    rw [Bool.and_eq_true] at hcond
    obtain ⟨h1, h2⟩ := hcond
    rcases hbad with hlen | ⟨c, hc, hw, hne⟩
    · rw [decide_eq_true_eq] at h1
      omega
    · unfold wordHyphenMatch at h2
      rw [Bool.and_eq_true, List.all_eq_true] at h2
      have hcw := h2.2 c hc
      rw [Bool.or_eq_true] at hcw
      rcases hcw with hcw | hcw
      · rw [hw] at hcw
        cases hcw
      · rw [decide_eq_true_eq] at hcw
        exact hne hcw
  unfold make_id
  simp only [if_neg hr]
  rw [if_neg hcond]

/-- C4 (counterexample): the non-empty deadline `"until filled"` is
retained (`is_within_retention` returns true on the parse failure), yet
it is neither empty nor a date on or after the cutoff, refuting the
claim's "only if" direction over all non-empty deadline strings. -/
theorem c4_counterexample :
    is_within_retention ⟨2025, 10, 12⟩ "until filled" 30 = true ∧
    ¬("until filled" = "" ∨ specDeadlineGE ⟨2025, 10, 12⟩ 30 "until filled") := by
  refine ⟨by decide, ?_⟩
  rintro (h | ⟨dt, hdt, _⟩)
  · exact absurd h (by decide)
  · have hn : strptime "until filled" "%Y-%m-%d" = none := by decide
    rw [hn] at hdt
    exact Option.noConfusion hdt

/-- C4 (amended): the retention filter retains a record iff its deadline
is empty, OR fails to parse under the exact format `%Y-%m-%d`, OR parses
to a date on or after (run date − `days`). -/
theorem c4_amended_retention_iff (today : PDate) (days : Nat) (s : String) :
    is_within_retention today s days = true ↔
      (s = "" ∨ strptime s "%Y-%m-%d" = none ∨ specDeadlineGE today days s) := by
  unfold is_within_retention specDeadlineGE
  by_cases hs : s = ""
  · simp [hs]
  · rw [if_neg hs]
    cases h : strptime s "%Y-%m-%d" with
    | none => simp [h, hs]
    | some dt => simp [h, hs]

/-- C10: for every non-empty deadline string that does not parse under
the exact format `%Y-%m-%d`, both `is_active` and `is_within_retention`
(with the default 30-day window) return true, for every run date. -/
theorem c10_unparsed_deadline_retained (today : PDate) (s : String)
    (hs : s ≠ "") (hp : strptime s "%Y-%m-%d" = none) :
    is_active today s = true ∧ is_within_retention today s 30 = true := by
  unfold is_active is_within_retention
  refine ⟨?_, ?_⟩ <;> rw [if_neg hs, hp]

/-- Witness for C10 at the deadline `"until filled"` and run date
2025-10-12. -/
theorem c10_unparsed_deadline_retained_witness :
    ("until filled" ≠ "" ∧ strptime "until filled" "%Y-%m-%d" = none) ∧
    is_active ⟨2025, 10, 12⟩ "until filled" = true ∧
    is_within_retention ⟨2025, 10, 12⟩ "until filled" 30 = true :=
  ⟨⟨by decide, by decide⟩,
   c10_unparsed_deadline_retained ⟨2025, 10, 12⟩ "until filled" (by decide) (by decide)⟩

/-- Witness for C3: a 21-character reference exceeds the length bound and
is hashed. -/
theorem c3_amended_hashed_form_witness :
    ("aaaaaaaaaaaaaaaaaaaaa" ≠ "" ∧
     (∀ c ∈ "aaaaaaaaaaaaaaaaaaaaa".data, c.toNat < 256) ∧
     20 < (clean "aaaaaaaaaaaaaaaaaaaaa").length) ∧
    make_id "HKU" (some "aaaaaaaaaaaaaaaaaaaaa") =
      pyUpper "HKU" ++ "-" ++
        String.mk ((md5Hex (clean "aaaaaaaaaaaaaaaaaaaaa")).data.take 10) :=
  ⟨⟨by decide, by decide, by decide⟩,
   c3_amended_hashed_form "HKU" "aaaaaaaaaaaaaaaaaaaaa" (by decide) (by decide)
     (Or.inl (by decide))⟩

/-- C5: for every surviving record, the diff stage sets
`is_new = "FALSE"` and `date_added` to the snapshot's stored value when
the id is a key of the snapshot, and `is_new = "TRUE"` with
`date_added = run date` otherwise; the result does not depend on the
upstream `is_new` value, and the stage is the map of this per-record
update over the surviving sequence. -/
theorem c5_diff_stage (e : List (String × String)) (t : String) (j : Job) :
    (∀ v, e.lookup j.id = some v →
      (diffOne e t j).is_new = "FALSE" ∧ (diffOne e t j).date_added = v) ∧
    (e.lookup j.id = none →
      (diffOne e t j).is_new = "TRUE" ∧ (diffOne e t j).date_added = t) ∧
    (∀ b, (diffOne e t { j with is_new := b }).is_new = (diffOne e t j).is_new) ∧
    (∀ l, applyDiff e t l = l.map (diffOne e t)) := by
  refine ⟨fun v hv => ?_, fun hn => ?_, fun b => ?_, fun l => rfl⟩
  · unfold diffOne
    rw [hv]
    exact ⟨rfl, rfl⟩
  · unfold diffOne
    rw [hn]
    exact ⟨rfl, rfl⟩
  · cases h : List.lookup j.id e <;> simp [diffOne, h]

/-- Witness for C5 with the spec's snapshot `{"POLYU-123": "2025-01-01"}`:
the seen id keeps its stored date; the unseen id gets today. -/
theorem c5_diff_stage_witness :
    (sampleSnapshot.lookup sampleJob.id = some "2025-01-01" ∧
     (diffOne sampleSnapshot "2025-10-12" sampleJob).is_new = "FALSE" ∧
     (diffOne sampleSnapshot "2025-10-12" sampleJob).date_added = "2025-01-01") ∧
    (sampleSnapshot.lookup sampleJob2.id = none ∧
     (diffOne sampleSnapshot "2025-10-12" sampleJob2).is_new = "TRUE" ∧
     (diffOne sampleSnapshot "2025-10-12" sampleJob2).date_added = "2025-10-12") :=
  ⟨⟨by decide,
    (c5_diff_stage sampleSnapshot "2025-10-12" sampleJob).1 "2025-01-01" (by decide)⟩,
   ⟨by decide,
    (c5_diff_stage sampleSnapshot "2025-10-12" sampleJob2).2.1 (by decide)⟩⟩

/-- C6: the deduplicator's output has pairwise distinct ids, every output
record is the first input record bearing its id (kept whole), every input
id is represented, and the full pipeline (retention only filters, diff
only rewrites `is_new`/`date_added`) preserves the id uniqueness. -/
theorem c6_dedup_uniqueness (jobs : List Job) (today : PDate)
    (snap : List (String × String)) :
    ((deduplicate jobs).map Job.id).Nodup ∧
    (∀ j, j ∈ deduplicate jobs →
      ∃ l1 l2, jobs = l1 ++ j :: l2 ∧ ∀ k ∈ l1, k.id ≠ j.id) ∧
    (∀ x, x ∈ jobs → ∃ j, j ∈ deduplicate jobs ∧ j.id = x.id) ∧
    ((runPipeline today snap jobs).map Job.id).Nodup := by
  refine ⟨dedupAux_nodup [] jobs, fun j hj => dedupAux_first hj,
    fun x hx => ?_, ?_⟩
  · rcases dedupAux_complete hx [] with hin | h
    · exact absurd hin (List.not_mem_nil _)
    · exact h
  · unfold runPipeline
    rw [applyDiff_map_id]
    have hsub : List.Sublist ((retentionStep today (deduplicate jobs)).map Job.id)
        ((deduplicate jobs).map Job.id) :=
      (List.filter_sublist _).map Job.id
    exact List.Nodup.sublist hsub (dedupAux_nodup [] jobs)

/-- Witness for C6 on a list with a duplicated id: the output ids are
distinct and the duplicated record keeps its first occurrence. -/
theorem c6_dedup_uniqueness_witness :
    ((deduplicate [sampleJob, sampleJob2, sampleJob]).map Job.id).Nodup ∧
    (∃ l1 l2, [sampleJob, sampleJob2, sampleJob] = l1 ++ sampleJob :: l2 ∧
      ∀ k ∈ l1, k.id ≠ sampleJob.id) :=
  ⟨(c6_dedup_uniqueness [sampleJob, sampleJob2, sampleJob] ⟨2025, 10, 12⟩
      sampleSnapshot).1,
   (c6_dedup_uniqueness [sampleJob, sampleJob2, sampleJob] ⟨2025, 10, 12⟩
      sampleSnapshot).2.1 sampleJob (by decide)⟩

/-- C7: the canonical pipeline is deterministic — two runs on equal raw
input, equal snapshot and equal run date serialize to identical bytes,
and the identity assigner gives equal ids to equal (source, reference)
pairs.  The embedding is a pure function of these three inputs; the
ambient date, the only other input the source reads, is the explicit
`PDate` argument. -/
theorem c7_pipeline_deterministic (raw1 raw2 : List Job)
    (snap1 snap2 : List (String × String)) (d1 d2 : PDate)
    (hraw : raw1 = raw2) (hsnap : snap1 = snap2) (hd : d1 = d2) :
    serializeCsv (runPipeline d1 snap1 raw1) =
      serializeCsv (runPipeline d2 snap2 raw2) ∧
    (∀ (code1 code2 : String) (r1 r2 : Option String),
      code1 = code2 → r1 = r2 → make_id code1 r1 = make_id code2 r2) := by
  subst hraw
  subst hsnap
  subst hd
  exact ⟨rfl, fun code1 code2 r1 r2 hc hr => by rw [hc, hr]⟩

/-- Witness for C7 at a concrete two-record run. -/
theorem c7_pipeline_deterministic_witness :
    serializeCsv (runPipeline ⟨2025, 10, 12⟩ sampleSnapshot [sampleJob, sampleJob2]) =
      serializeCsv (runPipeline ⟨2025, 10, 12⟩ sampleSnapshot [sampleJob, sampleJob2]) ∧
    make_id "POLYU" (some "123") = make_id "POLYU" (some "123") :=
  ⟨(c7_pipeline_deterministic [sampleJob, sampleJob2] [sampleJob, sampleJob2]
      sampleSnapshot sampleSnapshot ⟨2025, 10, 12⟩ ⟨2025, 10, 12⟩ rfl rfl rfl).1,
   (c7_pipeline_deterministic [sampleJob, sampleJob2] [sampleJob, sampleJob2]
      sampleSnapshot sampleSnapshot ⟨2025, 10, 12⟩ ⟨2025, 10, 12⟩ rfl rfl rfl).2
     "POLYU" "POLYU" (some "123") (some "123") rfl rfl⟩

/-- C8: rank classification equals first-match evaluation of the spec's
ordered substring table for every title; in particular a title containing
"associate professor" (and not "chair professor") is classified by the
earlier, more specific rule, and "chair professor" maps to Professor. -/
theorem c8_rank_table :
    (∀ title, detect_rank title = classifyRankSpec title) ∧
    detect_rank "Associate Professor of Finance" = "Associate Professor" ∧
    detect_rank "Chair Professor of Finance" = "Professor" :=
  ⟨fun _ => rfl, by decide, by decide⟩

/-- C9: date normalization is total — for every input the result is the
ISO conversion of the first format of the fixed ordered list that parses
the cleaned text, or the cleaned text verbatim when none does, and the
empty input yields the empty string. -/
theorem c9_parse_date_total :
    (∀ s, (∃ dt, firstParse pyFormats (clean s) = some dt ∧
        parse_date_text s = formatYmd dt) ∨
      (firstParse pyFormats (clean s) = none ∧ parse_date_text s = clean s)) ∧
    parse_date_text "" = "" := by
  refine ⟨fun s => ?_, rfl⟩
  by_cases hs : s = ""
  · subst hs
    exact Or.inr ⟨by decide, by decide⟩
  · have hdef : parse_date_text s =
        match firstParse pyFormats (clean s) with
        | some dt => formatYmd dt
        | none => clean s := by
      unfold parse_date_text
      rw [if_neg hs]
    cases h : firstParse pyFormats (clean s) with
    | none =>
      refine Or.inr ⟨rfl, ?_⟩
      rw [hdef, h]
    | some dt =>
      refine Or.inl ⟨dt, rfl, ?_⟩
      rw [hdef, h]

/-- C1 (counterexample): on the spec's test text the extractor yields no
record with deadline `"2025-02-01"`: the close-date capture
`[A-Za-z0-9 ]+` stops at the first hyphen of `"2025-02-01"`. -/
theorem c1_counterexample :
    ¬ ∃ j ∈ eduhkExtract ⟨2025, 10, 12⟩ "academic-teaching-posts" c1Text,
        j.title = "Senior Lecturer" ∧ j.department = "Department of Physics" ∧
        j.deadline = "2025-02-01" := by decide

/-- C1 (amended): on the spec's test text the extractor yields exactly
one record, with title "Senior Lecturer", department "Department of
Physics", and deadline `"2025"` (the capture truncated at the hyphen,
which no date format parses, hence passed through); the counter line
"School of Science (3)" appears in none of those fields. -/
theorem c1_amended_extraction :
    (eduhkExtract ⟨2025, 10, 12⟩ "academic-teaching-posts" c1Text).map Job.title =
      ["Senior Lecturer"] ∧
    (eduhkExtract ⟨2025, 10, 12⟩ "academic-teaching-posts" c1Text).map Job.department =
      ["Department of Physics"] ∧
    (eduhkExtract ⟨2025, 10, 12⟩ "academic-teaching-posts" c1Text).map Job.deadline =
      ["2025"] ∧
    (eduhkExtract ⟨2025, 10, 12⟩ "academic-teaching-posts" c1Text).all
      (fun j => !pyIn "School of Science (3)" j.title &&
        !pyIn "School of Science (3)" j.department &&
        !pyIn "School of Science (3)" j.deadline) = true :=
  ⟨by decide, by decide, by decide, by decide⟩

/-! Evaluation cross-checks of the embedded library functions against
their CPython behavior on concrete inputs. -/

example : md5Hex "unknown" = "ad921d60486366258809553a3db49a4a" := by decide

example : make_id "POLYU" none = "POLYU-unknown" := by decide

example : make_id "HKU" (some "é1") = "HKU-é1" := by decide

example : toOrdinal ⟨2025, 10, 12⟩ = 739536 := by decide

example : toOrdinal ⟨1, 1, 1⟩ = 1 := by decide

example : parse_date_text "27 February 2026" = "2026-02-27" := by decide

example : parse_date_text "2025-1-2" = "2025-01-02" := by decide

example : parse_date_text "2025" = "2025" := by decide

example : parse_date_text "until filled" = "until filled" := by decide

example : parse_date_text "March 7, 2026" = "2026-03-07" := by decide

example : parse_date_text "2/3/2026" = "2026-03-02" := by decide

example : parse_date_text "2025-02-30" = "2025-02-30" := by decide

example : parse_date_text "5 mar 2026" = "2026-03-05" := by decide

example : parse_date_text "Feb 29, 2024" = "2024-02-29" := by decide

example : parse_date_text "Feb 29, 2025" = "Feb 29, 2025" := by decide

example : parse_date_text "31/12/2025" = "2025-12-31" := by decide

example : parse_date_text "12/31/2025" = "2025-12-31" := by decide

example : parse_date_text "  27   February  2026  " = "2026-02-27" := by decide

example : parse_date_text "31 Apr 2025" = "31 Apr 2025" := by decide

example : is_within_retention ⟨2025, 10, 12⟩ "2025-09-11" 30 = false := by decide

example : is_within_retention ⟨2025, 10, 12⟩ "2025-09-12" 30 = true := by decide

example : is_within_retention ⟨2025, 10, 12⟩ "2025-09-13" 30 = true := by decide

example : is_within_retention ⟨2025, 10, 12⟩ "until filled" 30 = true := by decide

example : is_within_retention ⟨2025, 10, 12⟩ "" 30 = true := by decide

example : detect_rank "Associate Professor of Physics" = "Associate Professor" := by decide

example : detect_rank "Chair Professor" = "Professor" := by decide

example : detect_type "Part-time Lecturer" = "Part-time" := by decide

example :
    (eduhkExtract ⟨2025, 10, 12⟩ "academic-teaching-posts" c1Text).map Job.title =
      ["Senior Lecturer"] := by decide

example :
    (eduhkExtract ⟨2025, 10, 12⟩ "academic-teaching-posts" c1Text).map Job.department =
      ["Department of Physics"] := by decide

example :
    (eduhkExtract ⟨2025, 10, 12⟩ "academic-teaching-posts" c1Text).map Job.deadline =
      ["2025"] := by decide
